import Mathlib

/-!
Shallow embedding of the real-time chat relay in
`src/Practicing Season 3/Episode09_Realtime_Live_Chat.js`.

The server keeps two in-memory maps (`connectedUsers : socketId → user info`
and `userSocketMap : username → socketId`), the socket.io room membership
table (`socket.join` / `socket.leave`, set semantics per room), and a
durable MongoDB collection of messages (`Message` model).  All of these are
modelled as explicit state:

* JS `Map` objects become association lists keyed by `String`, with
  `Map.get / Map.set / Map.delete` as `alookup / aset / aerase`;
* the MongoDB collection becomes an append-ordered `List Message`
  (`Message.find({room}).sort({createdAt:-1})` is `filter` then `reverse`,
  because appends happen in creation order);
* MongoDB `_id` values become the `id : Nat` field, assigned as the store
  length at append time (fresh, increasing);
* a fallible `Message.create` (the JS code wraps it in try/catch) is
  modelled by a `storeOk : Bool` parameter: `true` runs the happy path,
  `false` is the catch branch, which in the source only logs the error.

Each socket.io event handler becomes a function from the server state and
the event's inputs to a new state plus a record of what was emitted and to
whom (`io.to(room).emit` targets every socket in the room;
`socket.to(room).emit` targets every socket in the room except the acting
socket; `socket.emit` targets the acting socket only).
-/

namespace Chat

/-- `connectedUsers` map entries: the object stored per socket in
`connectedUsers.set(socket.id, { username, socketId, status, joinedAt })`
(the `joinedAt` timestamp is real time and is not modelled). -/
structure UserInfo where
  username : String
  socketId : String
  status : String
  deriving Repr, DecidableEq

/-- A stored chat message: the fields of the mongoose `messageSchema`
(`sender`, `receiver` — `null` for room messages —, `room`, `content`,
`type`, `readBy`) plus the MongoDB `_id` as `id`.  The `createdAt`
timestamp is real time and is not modelled; creation order is the order of
the store list. -/
structure Message where
  id : Nat
  sender : String
  receiver : Option String
  room : String
  content : String
  type : String
  readBy : List String
  deriving Repr, DecidableEq

/-- Association-list lookup, the model of `Map.get` (`none` = `undefined`). -/
def alookup {α : Type} : List (String × α) → String → Option α
  | [], _ => none
  | (k', v) :: rest, k => if k' = k then some v else alookup rest k

/-- Removing every entry for a key, the model of `Map.delete`. -/
def aerase {α : Type} : List (String × α) → String → List (String × α)
  | [], _ => []
  | (k', v) :: rest, k => if k' = k then aerase rest k else (k', v) :: aerase rest k

/-- Insert-or-overwrite, the model of `Map.set` (only lookups matter to the
handlers, so the entry's position in the list is irrelevant). -/
def aset {α : Type} (l : List (String × α)) (k : String) (v : α) : List (String × α) :=
  aerase l k ++ [(k, v)]

/-- The whole mutable server state: the two user maps, the socket.io room
membership table, and the durable message store. -/
structure ServerState where
  connectedUsers : List (String × UserInfo)
  userSocketMap : List (String × String)
  roomMembers : List (String × List String)
  store : List Message
  deriving Repr, DecidableEq

/-- The state before any connection: empty maps, empty store. -/
def ServerState.empty : ServerState :=
  { connectedUsers := [], userSocketMap := [], roomMembers := [], store := [] }

/-- The set of socket ids currently in a room (a socket.io room that was
never joined is the empty set). -/
def membersOf (st : ServerState) (room : String) : List String :=
  (alookup st.roomMembers room).getD []

/-- `socket.join(roomName)`: adds the socket to the room's member set
(socket.io rooms are sets, so joining twice is a no-op). -/
def addMember (st : ServerState) (room : String) (sid : String) : ServerState :=
  let cur := membersOf st room
  { st with roomMembers := aset st.roomMembers room (if sid ∈ cur then cur else cur ++ [sid]) }

/-- `socket.leave(roomName)`: removes the socket from the room's member set. -/
def removeMember (st : ServerState) (room : String) (sid : String) : ServerState :=
  { st with roomMembers := aset st.roomMembers room ((membersOf st room).filter (fun x => x ≠ sid)) }

/-- The username the handlers resolve for a socket:
`const user = connectedUsers.get(socket.id); user ? user.username : "Unknown"`. -/
def usernameOf (st : ServerState) (sid : String) : String :=
  ((alookup st.connectedUsers sid).map (fun u => u.username)).getD "Unknown"

/-- The two-element `[senderName, to].sort()` of the JS code: JS default
`sort` orders strings ascending by their character sequence, which for two
elements yields the smaller first. -/
def sortPair (a b : String) : List String :=
  if a ≤ b then [a, b] else [b, a]

/-- The private-conversation room name computed in the `private-message`
handler: `dm_` followed by the two participant names sorted and joined
with `_`. -/
def dmRoom (a b : String) : String :=
  "dm_" ++ String.intercalate "_" (sortPair a b)

/-- The `messageData` object built by the `send-message` handler: sender is
the resolved username, no receiver (room message), `type` defaults to
`"text"` when the client omits it, and `readBy` starts as `[username]`
("Sender has read their own message").  `id` models the MongoDB `_id`. -/
def roomMessageData (username room content : String) (type? : Option String) (id : Nat) :
    Message :=
  { id := id, sender := username, receiver := none, room := room, content := content
  , type := type?.getD "text", readBy := [username] }

/-- The `messageData` object built by the `private-message` handler: the
receiver is recorded, the room is the derived `dm_...` name, the `type` is
the literal `"text"`, and no `readBy` field is supplied — the mongoose
schema's default for an omitted array path is the empty array. -/
def privateMessageData (senderName toUser content : String) (id : Nat) : Message :=
  { id := id, sender := senderName, receiver := some toUser, room := dmRoom senderName toUser
  , content := content, type := "text", readBy := [] }

/-- `socket.on("user-join")`: stores the user info under the socket id and
binds `username → socket.id` in `userSocketMap` (last write wins).  The
handler then emits the online list to everyone and a notification to all
other sockets; neither emission touches state, and the state change is what
the claims need. -/
def userJoin (st : ServerState) (sid username : String) : ServerState :=
  { st with
    connectedUsers := aset st.connectedUsers sid
      { username := username, socketId := sid, status := "online" }
    userSocketMap := aset st.userSocketMap username sid }

/-- What `join-room` emits and the state it leaves. -/
structure JoinRoomResult where
  state : ServerState
  /-- the `chat-history` emission to the joining socket: `some h` models
  `socket.emit("chat-history", h)` with
  `Message.find({room}).sort({createdAt:-1}).limit(50)` then `.reverse()`;
  `none` models the catch branch of the fetch, which only logs the error
  and emits nothing to the joiner -/
  historyPayload : Option (List Message)
  /-- targets of `socket.to(roomName).emit("notification", ...)`: every
  socket in the room except the acting socket -/
  notifTargets : List String
  /-- the notification's `message` field -/
  notifMessage : String
  deriving Repr, DecidableEq

/-- `socket.on("join-room")`: joins the room unconditionally (there is no
registry check — an unknown socket resolves to username `"Unknown"`),
then tries to send the room's last 50 stored messages oldest-first to the
joiner (`fetchOk = false` is the catch branch around `Message.find`, which
only logs, so no `chat-history` event is emitted), and finally notifies
the rest of the room whether or not the fetch succeeded. -/
def joinRoom (st : ServerState) (sid roomName : String) (fetchOk : Bool) : JoinRoomResult :=
  let st' := addMember st roomName sid
  let username := usernameOf st sid
  let roomMsgs := st.store.filter (fun m => m.room = roomName)
  { state := st'
  , historyPayload := if fetchOk then some ((roomMsgs.reverse.take 50).reverse) else none
  , notifTargets := (membersOf st' roomName).filter (fun x => x ≠ sid)
  , notifMessage := username ++ " joined the room" }

/-- What `send-message` emits and the state it leaves. -/
structure SendMessageResult where
  state : ServerState
  /-- targets of `io.to(room).emit("new-message", ...)`: every socket
  currently in the room (the sender only if it is itself a member) -/
  broadcastTargets : List String
  /-- the broadcast `messageData` payload -/
  broadcastPayload : Message
  deriving Repr, DecidableEq

/-- `socket.on("send-message")`: builds `messageData`, tries to persist it
(`storeOk = false` is the catch branch, which only logs), then broadcasts
to the whole room unconditionally — there is no membership check on the
sender, no error reply, and the broadcast is not conditioned on the save
having succeeded. -/
def sendMessage (st : ServerState) (sid room content : String) (type? : Option String)
    (storeOk : Bool) : SendMessageResult :=
  let msg := roomMessageData (usernameOf st sid) room content type? st.store.length
  { state := { st with store := if storeOk then st.store ++ [msg] else st.store }
  , broadcastTargets := membersOf st room
  , broadcastPayload := msg }

/-- What `private-message` emits and the state it leaves. -/
structure PrivateMessageResult where
  state : ServerState
  /-- targets of the delivery `io.to(receiverSocketId).emit`: the resolved
  receiver socket when `userSocketMap` knows the recipient, else nobody -/
  deliveryTargets : List String
  /-- `socket.emit("private-message", messageData)`: the echo back to the
  sending socket always happens -/
  echoTarget : String
  /-- the `messageData` payload sent to both -/
  payload : Message
  deriving Repr, DecidableEq

/-- `socket.on("private-message")`: resolves the recipient's socket from
`userSocketMap`, builds `messageData` with the derived `dm_...` room name
and the literal type `"text"`, tries to persist it, delivers to the
recipient when online and always echoes to the sender. -/
def privateMessage (st : ServerState) (sid toUser content : String)
    (storeOk : Bool) : PrivateMessageResult :=
  let msg := privateMessageData (usernameOf st sid) toUser content st.store.length
  { state := { st with store := if storeOk then st.store ++ [msg] else st.store }
  , deliveryTargets :=
      match alookup st.userSocketMap toUser with
      | some receiverSocketId => [receiverSocketId]
      | none => []
  , echoTarget := sid
  , payload := msg }

/-- What a typing event emits. -/
structure TypingResult where
  /-- targets of `socket.to(room).emit("user-typing", ...)`: every socket
  in the room except the acting socket -/
  targets : List String
  username : String
  isTyping : Bool
  deriving Repr, DecidableEq

/-- `socket.on("typing-start")`: notifies the room, excluding the sender. -/
def typingStart (st : ServerState) (sid room : String) : TypingResult :=
  { targets := (membersOf st room).filter (fun x => x ≠ sid)
  , username := usernameOf st sid
  , isTyping := true }

/-- `socket.on("typing-stop")`: same fan-out, `isTyping := false`. -/
def typingStop (st : ServerState) (sid room : String) : TypingResult :=
  { targets := (membersOf st room).filter (fun x => x ≠ sid)
  , username := usernameOf st sid
  , isTyping := false }

/-- The `$addToSet` update on one message's `readBy` array: appends the
username unless it is already present. -/
def addToSet (x : String) (l : List String) : List String :=
  if x ∈ l then l else l ++ [x]

/-- `Message.updateMany({_id ∈ messageIds}, {$addToSet: {readBy: username}})`
restricted to one document. -/
def markReadMsg (messageIds : List Nat) (username : String) (m : Message) : Message :=
  if m.id ∈ messageIds then { m with readBy := addToSet username m.readBy } else m

/-- `socket.on("mark-read")`: the store after the `updateMany` (the handler
also emits `messages-read` to the room except the reader; only the store
change matters to the claims). -/
def markRead (store : List Message) (messageIds : List Nat) (username : String) :
    List Message :=
  store.map (markReadMsg messageIds username)

/-- `socket.on("disconnect")`: when the socket has a registry entry, the
handler deletes `userSocketMap[username]` unconditionally and removes the
registry entry; with no entry it does nothing.  Independently of the
handler, socket.io itself removes a disconnecting socket from every room;
that cleanup is the final `roomMembers` map. -/
def disconnect (st : ServerState) (sid : String) : ServerState :=
  let st' :=
    match alookup st.connectedUsers sid with
    | none => st
    | some user =>
        { st with
          userSocketMap := aerase st.userSocketMap user.username
          connectedUsers := aerase st.connectedUsers sid }
  { st' with roomMembers := st'.roomMembers.map (fun p => (p.1, p.2.filter (fun x => x ≠ sid))) }

/-! Helper lemmas about the map model. -/

theorem alookup_aerase {α : Type} (l : List (String × α)) (k : String) :
    alookup (aerase l k) k = none := by
  induction l with
  | nil => rfl
  | cons p rest ih =>
    obtain ⟨k', v⟩ := p
    by_cases h : k' = k
    · show alookup (if k' = k then aerase rest k else (k', v) :: aerase rest k) k = none
      rw [if_pos h]
      exact ih
    · show alookup (if k' = k then aerase rest k else (k', v) :: aerase rest k) k = none
      rw [if_neg h]
      show (if k' = k then some v else alookup (aerase rest k) k) = none
      rw [if_neg h]
      exact ih

theorem alookup_append_of_none {α : Type} (l₁ l₂ : List (String × α)) (k : String)
    (h : alookup l₁ k = none) : alookup (l₁ ++ l₂) k = alookup l₂ k := by
  induction l₁ with
  | nil => rfl
  | cons p rest ih =>
    obtain ⟨k', v⟩ := p
    have h' : (if k' = k then some v else alookup rest k) = none := h
    by_cases hk : k' = k
    · rw [if_pos hk] at h'
      exact absurd h' (Option.some_ne_none v)
    · rw [if_neg hk] at h'
      show (if k' = k then some v else alookup (rest ++ l₂) k) = alookup l₂ k
      rw [if_neg hk]
      exact ih h'

theorem alookup_aset_self {α : Type} (l : List (String × α)) (k : String) (v : α) :
    alookup (aset l k v) k = some v := by
  rw [aset, alookup_append_of_none _ _ _ (alookup_aerase l k)]
  simp [alookup]

theorem membersOf_addMember (st : ServerState) (room sid : String) :
    membersOf (addMember st room sid) room =
      if sid ∈ membersOf st room then membersOf st room else membersOf st room ++ [sid] := by
  simp [membersOf, addMember, alookup_aset_self]

theorem mem_addMember (st : ServerState) (room sid : String) :
    sid ∈ membersOf (addMember st room sid) room := by
  rw [membersOf_addMember]
  by_cases h : sid ∈ membersOf st room
  · simp [h]
  · simp [h]

theorem filter_ne_addMember (st : ServerState) (room sid : String) :
    (membersOf (addMember st room sid) room).filter (fun x => x ≠ sid) =
      (membersOf st room).filter (fun x => x ≠ sid) := by
  rw [membersOf_addMember]
  by_cases h : sid ∈ membersOf st room
  · simp [h]
  · simp [h, List.filter_append]

theorem lastN_decomp {α : Type} (l : List α) (n : Nat) :
    (l.reverse.drop n).reverse ++ (l.reverse.take n).reverse = l := by
  rw [← List.reverse_append, List.take_append_drop, List.reverse_reverse]

/-! Concrete fixture states used in counterexamples and witnesses. -/

/-- Two sockets `s1`, `s2` that both joined with identity `"alice"`: the
second `user-join` superseded the first one's `userSocketMap` binding. -/
def stDup : ServerState :=
  userJoin (userJoin ServerState.empty "s1" "alice") "s2" "alice"

/-- Socket `s1` is user `"A"` (in no room); socket `s2` is user `"B"` and
has joined the room `"general"`. -/
def stGen : ServerState :=
  (joinRoom (userJoin (userJoin ServerState.empty "s1" "A") "s2" "B") "s2" "general" true).state

/-- `stGen` after `s2` sent one message to `general` (successfully
persisted), so the room has exactly one stored message. -/
def stGenMsg : ServerState :=
  (sendMessage stGen "s2" "general" "hello" none true).state

/-! Claim theorems. -/

/-- C2, counterexample: in `stGen` (room `general` has member `s2`, empty
store), a `send-message` whose durable append fails (`storeOk = false`)
leaves the store empty yet still broadcasts the `new-message` event to
`s2`, and no failed-send acknowledgment exists anywhere in the handler's
output — refuting that broadcast is conditioned on a successful append. -/
theorem c2_counterexample :
    (sendMessage stGen "s2" "general" "hi" none false).state.store = [] ∧
    (sendMessage stGen "s2" "general" "hi" none false).broadcastTargets = ["s2"] :=
  ⟨rfl, rfl⟩

/-- C2, amended: the `send-message` broadcast is unconditional — the
`new-message` event goes to the room's members whether or not the append
succeeded; a failed append leaves the store unchanged (the catch branch
only logs, sending no acknowledgment to the sender), and a successful
append stores exactly the broadcast message. -/
theorem c2_amended (st : ServerState) (sid room content : String) (t? : Option String)
    (ok : Bool) :
    (sendMessage st sid room content t? ok).broadcastTargets = membersOf st room ∧
    (sendMessage st sid room content t? false).state.store = st.store ∧
    (sendMessage st sid room content t? true).state.store =
      st.store ++ [roomMessageData (usernameOf st sid) room content t? st.store.length] :=
  ⟨rfl, rfl, rfl⟩

/-- C1, counterexample: in `stGen`, socket `s1` is not a member of room
`general`, yet its `send-message` is broadcast to the member `s2` and one
message is appended to the store; the handler has no membership check and
emits no `NotMember` reply — refuting the claimed rejection. -/
theorem c1_counterexample :
    "s1" ∉ membersOf stGen "general" ∧
    (sendMessage stGen "s1" "general" "hi" none true).broadcastTargets = ["s2"] ∧
    (sendMessage stGen "s1" "general" "hi" none true).state.store.length = 1 :=
  ⟨by decide, rfl, rfl⟩

/-- C1, amended: a `send-message` from a socket that is not a member of the
target room is not rejected: the message is appended to the store (when
the append succeeds) and broadcast to all current members of the room; the
non-member sender is merely absent from the broadcast targets, and no
error is sent to it. -/
theorem c1_amended (st : ServerState) (sid room content : String) (t? : Option String)
    (h : sid ∉ membersOf st room) :
    (sendMessage st sid room content t? true).state.store =
      st.store ++ [roomMessageData (usernameOf st sid) room content t? st.store.length] ∧
    (sendMessage st sid room content t? true).broadcastTargets = membersOf st room ∧
    sid ∉ (sendMessage st sid room content t? true).broadcastTargets :=
  ⟨rfl, rfl, h⟩

/-- C1, amended, witness: the amended statement instantiated in `stGen`
with the non-member sender `s1`. -/
theorem c1_amended_witness :
    "s1" ∉ membersOf stGen "general" ∧
    ((sendMessage stGen "s1" "general" "hi" none true).state.store =
      stGen.store ++ [roomMessageData (usernameOf stGen "s1") "general" "hi" none
        stGen.store.length] ∧
    (sendMessage stGen "s1" "general" "hi" none true).broadcastTargets =
      membersOf stGen "general" ∧
    "s1" ∉ (sendMessage stGen "s1" "general" "hi" none true).broadcastTargets) :=
  ⟨by decide, c1_amended stGen "s1" "general" "hi" none (by decide)⟩

/-- C3, counterexample: in `stDup` the binding for `"alice"` points to the
newer socket `s2`, yet when the superseded socket `s1` disconnects, the
handler's unconditional `userSocketMap.delete(user.username)` removes that
binding — refuting that a stale binding is left unchanged. -/
theorem c3_counterexample :
    alookup stDup.userSocketMap "alice" = some "s2" ∧
    alookup (disconnect stDup "s1").userSocketMap "alice" = none :=
  ⟨rfl, rfl⟩

/-- C3, amended: whenever the disconnecting socket still has a
`connectedUsers` entry, the disconnect handler removes the
`userSocketMap` binding for that entry's username unconditionally — even
when the binding has been superseded and points to a newer socket. -/
theorem c3_amended (st : ServerState) (sid : String) (u : UserInfo)
    (h : alookup st.connectedUsers sid = some u) :
    alookup (disconnect st sid).userSocketMap u.username = none := by
  simp [disconnect, h, alookup_aerase]

/-- C3, amended, witness: the amended statement instantiated in `stDup`
for the superseded socket `s1`. -/
theorem c3_amended_witness :
    alookup stDup.connectedUsers "s1" =
      some { username := "alice", socketId := "s1", status := "online" } ∧
    alookup (disconnect stDup "s1").userSocketMap "alice" = none :=
  ⟨rfl, c3_amended stDup "s1" { username := "alice", socketId := "s1", status := "online" } rfl⟩

/-- C4, counterexample: the empty server has no registry entry for `s1`,
yet `join-room` makes `s1` a member of `general` and broadcasts an
"Unknown joined the room" notification instead of rejecting with
`InvalidConnection`. -/
theorem c4_counterexample :
    alookup ServerState.empty.connectedUsers "s1" = none ∧
    "s1" ∈ membersOf (joinRoom ServerState.empty "s1" "general" true).state "general" ∧
    (joinRoom ServerState.empty "s1" "general" true).notifMessage = "Unknown joined the room" :=
  ⟨rfl, by decide, rfl⟩

/-- C4, amended: a `join-room` from a socket with no Connection Registry
entry is not rejected — the socket acquires membership of the room, and
the notification to the other members names the joiner `"Unknown"`. -/
theorem c4_amended (st : ServerState) (sid room : String) (fetchOk : Bool)
    (h : alookup st.connectedUsers sid = none) :
    sid ∈ membersOf (joinRoom st sid room fetchOk).state room ∧
    (joinRoom st sid room fetchOk).notifMessage = "Unknown joined the room" := by
  constructor
  · exact mem_addMember st room sid
  · show usernameOf st sid ++ " joined the room" = "Unknown joined the room"
    rw [usernameOf, h]
    rfl

/-- C4, amended, witness: the amended statement instantiated on the empty
server state. -/
theorem c4_amended_witness :
    alookup ServerState.empty.connectedUsers "s1" = none ∧
    ("s1" ∈ membersOf (joinRoom ServerState.empty "s1" "general" true).state "general" ∧
    (joinRoom ServerState.empty "s1" "general" true).notifMessage = "Unknown joined the room") :=
  ⟨rfl, c4_amended ServerState.empty "s1" "general" true rfl⟩

/-- C5, counterexample: in `stGenMsg` the room `general` holds one stored
message, yet the `join-room` whose history fetch fails (`fetchOk = false`)
emits no `chat-history` event to the joiner at all — the catch branch only
logs — while the "joined the room" notification still goes out; this
refutes the claim that every `join-room` delivers the most recent stored
messages to the joiner. -/
theorem c5_counterexample :
    (stGenMsg.store.filter (fun m => m.room = "general")).length = 1 ∧
    (joinRoom stGenMsg "s1" "general" false).historyPayload = none ∧
    (joinRoom stGenMsg "s1" "general" false).notifTargets = ["s2"] :=
  ⟨rfl, rfl, rfl⟩

/-- C5, amended: when the history fetch succeeds, the `chat-history`
payload sent to the joiner is a final segment of the room's stored
messages in creation (oldest-first) order whose length is `min 50` the
room's message count — the most recent 50 messages, oldest first; when
the fetch fails the joiner receives no `chat-history` event (the error is
only logged).  In either case the "joined the room" notification goes
exactly to the room's previously existing members, never to the joiner
itself. -/
theorem c5_amended (st : ServerState) (sid roomName : String) (fetchOk : Bool) :
    (∃ earlier hist,
        (joinRoom st sid roomName true).historyPayload = some hist ∧
        earlier ++ hist = st.store.filter (fun m => m.room = roomName) ∧
        hist.length = min 50 (st.store.filter (fun m => m.room = roomName)).length) ∧
    (joinRoom st sid roomName false).historyPayload = none ∧
    sid ∉ (joinRoom st sid roomName fetchOk).notifTargets ∧
    (joinRoom st sid roomName fetchOk).notifTargets =
      (membersOf st roomName).filter (fun x => x ≠ sid) := by
  refine ⟨⟨((st.store.filter (fun m => m.room = roomName)).reverse.drop 50).reverse,
    ((st.store.filter (fun m => m.room = roomName)).reverse.take 50).reverse,
    ?_, lastN_decomp _ 50, ?_⟩, rfl, ?_, ?_⟩
  · rfl
  · show ((st.store.filter (fun m => m.room = roomName)).reverse.take 50).reverse.length = _
    simp
  · show sid ∉ (membersOf (addMember st roomName sid) roomName).filter (fun x => x ≠ sid)
    simp
  · exact filter_ne_addMember st roomName sid

/-- C6: the `private-message` handler stores and delivers the message under
the derived conversation room name `dmRoom sender recipient`, and that name
is symmetric in its two participants — both sides of a conversation compute
the same `dm_..._...` identifier from the lexicographically sorted pair. -/
theorem c6_dm_room_symmetric (st : ServerState) (sid toUser content : String) (ok : Bool)
    (a b : String) :
    (privateMessage st sid toUser content ok).payload.room =
      dmRoom (usernameOf st sid) toUser ∧
    dmRoom a b = dmRoom b a := by
  refine ⟨rfl, ?_⟩
  unfold dmRoom sortPair
  by_cases hab : a ≤ b
  · by_cases hba : b ≤ a
    · rw [le_antisymm hab hba]
    · rw [if_pos hab, if_neg hba]
  · have hba : b ≤ a := le_of_not_le hab
    rw [if_neg hab, if_pos hba]

/-- C7: with the sender a member of the room, the `send-message` fan-out is
the full member set — sender included — while both typing events fan out to
the member set with the sender filtered away, so the sender is never among
the typing targets. -/
theorem c7_fanout_asymmetry (st : ServerState) (sid room content : String)
    (t? : Option String) (ok : Bool) (h : sid ∈ membersOf st room) :
    (sendMessage st sid room content t? ok).broadcastTargets = membersOf st room ∧
    sid ∈ (sendMessage st sid room content t? ok).broadcastTargets ∧
    (typingStart st sid room).targets = (membersOf st room).filter (fun x => x ≠ sid) ∧
    (typingStop st sid room).targets = (membersOf st room).filter (fun x => x ≠ sid) ∧
    sid ∉ (typingStart st sid room).targets ∧
    sid ∉ (typingStop st sid room).targets := by
  refine ⟨rfl, h, rfl, rfl, ?_, ?_⟩ <;>
    · show sid ∉ (membersOf st room).filter (fun x => x ≠ sid)
      simp

/-- C7, witness: the asymmetry instantiated in `stGen` for the member
`s2` of room `general`. -/
theorem c7_fanout_asymmetry_witness :
    "s2" ∈ membersOf stGen "general" ∧
    ((sendMessage stGen "s2" "general" "hi" none true).broadcastTargets =
      membersOf stGen "general" ∧
    "s2" ∈ (sendMessage stGen "s2" "general" "hi" none true).broadcastTargets ∧
    (typingStart stGen "s2" "general").targets =
      (membersOf stGen "general").filter (fun x => x ≠ "s2") ∧
    (typingStop stGen "s2" "general").targets =
      (membersOf stGen "general").filter (fun x => x ≠ "s2") ∧
    "s2" ∉ (typingStart stGen "s2" "general").targets ∧
    "s2" ∉ (typingStop stGen "s2" "general").targets) :=
  ⟨by decide, c7_fanout_asymmetry stGen "s2" "general" "hi" none true (by decide)⟩

/-- C8, counterexample: a private message stored for sender `"alice"` has
an empty `readBy` array (the handler supplies no `readBy` field and the
schema default is the empty array), not `["alice"]` — refuting that every
appended message starts with read-set `{sender}`. -/
theorem c8_counterexample :
    (privateMessage (userJoin ServerState.empty "s1" "alice") "s1" "bob" "secret"
      true).payload.sender = "alice" ∧
    (privateMessage (userJoin ServerState.empty "s1" "alice") "s1" "bob" "secret"
      true).payload.readBy = [] ∧
    (privateMessage (userJoin ServerState.empty "s1" "alice") "s1" "bob" "secret"
      true).state.store =
      [(privateMessage (userJoin ServerState.empty "s1" "alice") "s1" "bob" "secret"
        true).payload] ∧
    (privateMessage (userJoin ServerState.empty "s1" "alice") "s1" "bob" "secret"
      true).payload.readBy ≠
      [(privateMessage (userJoin ServerState.empty "s1" "alice") "s1" "bob" "secret"
        true).payload.sender] :=
  ⟨rfl, rfl, rfl, by decide⟩

/-- C8, amended: only room messages initialize the read-set to exactly the
sender; the `private-message` handler supplies no `readBy` field, so a
stored private message starts with an empty read-set. -/
theorem c8_amended (st : ServerState) (sid room content : String) (t? : Option String)
    (toUser pContent : String) (ok : Bool) :
    (sendMessage st sid room content t? ok).broadcastPayload.readBy = [usernameOf st sid] ∧
    (privateMessage st sid toUser pContent ok).payload.readBy = [] :=
  ⟨rfl, rfl⟩

/-! `$addToSet` lemmas for the read-receipt claim. -/

theorem mem_addToSet (x : String) (l : List String) : x ∈ addToSet x l := by
  unfold addToSet
  by_cases h : x ∈ l
  · simp [h]
  · simp [h]

theorem subset_addToSet (x : String) (l : List String) : l ⊆ addToSet x l := by
  unfold addToSet
  by_cases h : x ∈ l
  · simp [h]
  · simp only [h, if_false]
    exact List.subset_append_left l [x]

theorem count_addToSet (x : String) (l : List String) :
    (addToSet x l).count x ≤ max 1 (l.count x) := by
  unfold addToSet
  by_cases h : x ∈ l
  · simp only [h, if_true]
    exact le_max_right _ _
  · simp only [h, if_false]
    rw [List.count_append, List.count_eq_zero.mpr h]
    simp

theorem nodup_addToSet (x : String) (l : List String) (h : l.Nodup) :
    (addToSet x l).Nodup := by
  unfold addToSet
  by_cases hx : x ∈ l
  · simpa [hx]
  · simp [hx, List.nodup_append, h]

theorem addToSet_idem (x : String) (l : List String) :
    addToSet x (addToSet x l) = addToSet x l := by
  show (if x ∈ addToSet x l then addToSet x l else addToSet x l ++ [x]) = addToSet x l
  rw [if_pos (mem_addToSet x l)]

theorem markReadMsg_idem (ids : List Nat) (u : String) (m : Message) :
    markReadMsg ids u (markReadMsg ids u m) = markReadMsg ids u m := by
  unfold markReadMsg
  by_cases h : m.id ∈ ids
  · simp [h, addToSet_idem]
  · simp [h]

/-- C9: `mark-read` only grows a message's `readBy` array (never loses a
member), adds the reader at most once (the count of the reader in the
result is at most `max 1` its previous count, and a duplicate-free array
stays duplicate-free), and running the same `mark-read` again leaves the
store unchanged. -/
theorem c9_mark_read_props (store : List Message) (ids : List Nat) (u : String)
    (m : Message) :
    m.readBy ⊆ (markReadMsg ids u m).readBy ∧
    (markReadMsg ids u m).readBy.count u ≤ max 1 (m.readBy.count u) ∧
    (m.readBy.Nodup → (markReadMsg ids u m).readBy.Nodup) ∧
    markRead (markRead store ids u) ids u = markRead store ids u := by
  refine ⟨?_, ?_, ?_, ?_⟩
  · unfold markReadMsg
    by_cases h : m.id ∈ ids
    · simp only [h, if_true]
      exact subset_addToSet u m.readBy
    · simp [h]
  · unfold markReadMsg
    by_cases h : m.id ∈ ids
    · simpa [h] using count_addToSet u m.readBy
    · simp only [h, if_false]
      exact le_max_right _ _
  · intro hn
    unfold markReadMsg
    by_cases h : m.id ∈ ids
    · simp only [h, if_true]
      exact nodup_addToSet u m.readBy hn
    · simpa [h] using hn
  · unfold markRead
    rw [List.map_map]
    rw [show markReadMsg ids u ∘ markReadMsg ids u = markReadMsg ids u from
      funext (markReadMsg_idem ids u)]

/-- A sample stored message for the C9 witness. -/
def sampleMsg : Message :=
  { id := 0, sender := "alice", receiver := none, room := "general", content := "hi"
  , type := "text", readBy := ["alice"] }

/-- C9, witness: the `mark-read` properties instantiated on a one-message
store with a duplicate-free read-set. -/
theorem c9_mark_read_props_witness :
    sampleMsg.readBy ⊆ (markReadMsg [0] "bob" sampleMsg).readBy ∧
    (markReadMsg [0] "bob" sampleMsg).readBy.count "bob" ≤
      max 1 (sampleMsg.readBy.count "bob") ∧
    (markReadMsg [0] "bob" sampleMsg).readBy.Nodup ∧
    markRead (markRead [sampleMsg] [0] "bob") [0] "bob" = markRead [sampleMsg] [0] "bob" := by
  have h := c9_mark_read_props [sampleMsg] [0] "bob" sampleMsg
  exact ⟨h.1, h.2.1, h.2.2.1 (by decide), h.2.2.2⟩

/-- C10: a private message is stored and delivered with content type
exactly `"text"` no matter what, while a room `send-message` carries the
client-supplied type (defaulting to `"text"` only when the client omits
it) — so only room sends can carry the `image` or `file` types. -/
theorem c10_private_type_text (st : ServerState) (sid toUser content : String) (ok : Bool)
    (sid2 room c t : String) :
    (privateMessage st sid toUser content ok).payload.type = "text" ∧
    (privateMessage st sid toUser content true).state.store =
      st.store ++ [privateMessageData (usernameOf st sid) toUser content st.store.length] ∧
    (sendMessage st sid2 room c (some t) ok).broadcastPayload.type = t ∧
    (sendMessage st sid2 room c none ok).broadcastPayload.type = "text" :=
  ⟨rfl, rfl, rfl, rfl⟩

end Chat
